import Mathlib

/-!
Verification of the frame-rate up-conversion utilities (`src/util.cpp`,
`src/motion_compensation.hpp`) against their natural-language specification.

The C++ code is shallowly embedded: `cv::Mat` single-channel float images
become a structure carrying dimensions and an entry function into `ℚ`
(exact arithmetic standing in for IEEE floats wherever the properties at
stake are structural, not rounding properties); `std::vector` grids become
functions; fallible paths become `Except`.
-/

namespace FRUC

/-- A single-channel numeric image (`cv::Mat` of `CV_32FC1`/`CV_64FC1`):
dimensions plus an entry function.  `entry i j` is the sample at row `i`,
column `j`; reads are only meaningful for `0 ≤ i < rows`, `0 ≤ j < cols`. -/
structure MatQ where
  rows : ℤ
  cols : ℤ
  entry : ℤ → ℤ → ℚ

/-- C++ `round` (from `<cmath>`): nearest integer, halfway cases away
from zero.  Used by `calcSAD` on the candidate displacements. -/
def cround (q : ℚ) : ℤ :=
  if 0 ≤ q then ⌊q + 1/2⌋ else ⌈q - 1/2⌉

/-- The pixel grid of a block: all `(i, j)` with `0 ≤ i < rows`,
`0 ≤ j < cols`, as a finite set of natural pairs. -/
def pixelGrid (rows cols : ℤ) : Finset (ℕ × ℕ) :=
  Finset.range rows.toNat ×ˢ Finset.range cols.toNat

/-- `calcSAD` (src/util.cpp:129-150), with the code's locals
`y = rowpos*BLOCK_SIZE`, `x = colpos*BLOCK_SIZE`, `dy_int = round(dy)`,
`dx_int = round(dx)` inlined.  Sums, over every pixel of `prevBlock`,
either the absolute difference with the displaced sample of `curr`, or —
when the displaced coordinate leaves `curr` (the code's
`< 0 / >= rows / < 0 / >= cols` test) — the reference pixel itself as a
boundary penalty.  `BLOCK_SIZE` (from `constants.hpp`, which is not among
the sources) is passed explicitly; the spec constrains it to a positive
integer only. -/
def calcSAD (BLOCK_SIZE : ℤ) (prevBlock : MatQ) (rowpos colpos : ℤ)
    (curr : MatQ) (dx dy : ℚ) : ℚ :=
  ∑ p ∈ pixelGrid prevBlock.rows prevBlock.cols,
    if (p.1 : ℤ) + rowpos * BLOCK_SIZE + cround dy < 0 ∨
       (p.1 : ℤ) + rowpos * BLOCK_SIZE + cround dy ≥ curr.rows ∨
       (p.2 : ℤ) + colpos * BLOCK_SIZE + cround dx < 0 ∨
       (p.2 : ℤ) + colpos * BLOCK_SIZE + cround dx ≥ curr.cols then
      prevBlock.entry p.1 p.2
    else
      |prevBlock.entry p.1 p.2 -
        curr.entry ((p.1 : ℤ) + rowpos * BLOCK_SIZE + cround dy)
          ((p.2 : ℤ) + colpos * BLOCK_SIZE + cround dx)|

/-- The cost of a block/displacement pair, written from the spec's words
(§4.2): for every pixel `(i,j)` of the reference block, the target sample
sits at `(i + blockRowpos*BLOCK_SIZE + round(dy),
j + blockColpos*BLOCK_SIZE + round(dx))`; when that coordinate lies inside
the target frame the absolute difference is accumulated, when it lies
outside the reference pixel's own value is. -/
def specBlockCost (BLOCK_SIZE : ℤ) (refBlock : MatQ) (rowpos colpos : ℤ)
    (target : MatQ) (dx dy : ℚ) : ℚ :=
  ∑ p ∈ pixelGrid refBlock.rows refBlock.cols,
    if 0 ≤ (p.1 : ℤ) + rowpos * BLOCK_SIZE + cround dy ∧
       (p.1 : ℤ) + rowpos * BLOCK_SIZE + cround dy < target.rows ∧
       0 ≤ (p.2 : ℤ) + colpos * BLOCK_SIZE + cround dx ∧
       (p.2 : ℤ) + colpos * BLOCK_SIZE + cround dx < target.cols then
      |refBlock.entry p.1 p.2 -
        target.entry ((p.1 : ℤ) + rowpos * BLOCK_SIZE + cround dy)
          ((p.2 : ℤ) + colpos * BLOCK_SIZE + cround dx)|
    else
      refBlock.entry p.1 p.2

/-- The set of block pixels whose displaced target coordinate falls outside
the target frame's bounds (the pixels `calcSAD` charges the boundary
penalty for). -/
def outsidePixels (BLOCK_SIZE : ℤ) (refBlock : MatQ) (rowpos colpos : ℤ)
    (target : MatQ) (dx dy : ℚ) : Finset (ℕ × ℕ) :=
  (pixelGrid refBlock.rows refBlock.cols).filter fun p =>
    (p.1 : ℤ) + rowpos * BLOCK_SIZE + cround dy < 0 ∨
    (p.1 : ℤ) + rowpos * BLOCK_SIZE + cround dy ≥ target.rows ∨
    (p.2 : ℤ) + colpos * BLOCK_SIZE + cround dx < 0 ∨
    (p.2 : ℤ) + colpos * BLOCK_SIZE + cround dx ≥ target.cols

/-- The boundary-penalty portion of `calcSAD`'s cost: the sum of the
reference pixel values over the pixels charged the penalty. -/
def penaltyPortion (BLOCK_SIZE : ℤ) (refBlock : MatQ) (rowpos colpos : ℤ)
    (target : MatQ) (dx dy : ℚ) : ℚ :=
  ∑ p ∈ outsidePixels BLOCK_SIZE refBlock rowpos colpos target dx dy,
    refBlock.entry p.1 p.2

/-- C2: `calcSAD` computes exactly the cost the spec describes: per block
pixel, the absolute difference against the target-frame sample at
`(i + blockRowpos*BLOCK_SIZE + round(dy), j + blockColpos*BLOCK_SIZE +
round(dx))` when that coordinate is inside the target frame, and the
reference pixel itself (boundary penalty) when it is outside. -/
theorem calcSAD_eq_specBlockCost (BLOCK_SIZE : ℤ) (prevBlock : MatQ)
    (rowpos colpos : ℤ) (curr : MatQ) (dx dy : ℚ) :
    calcSAD BLOCK_SIZE prevBlock rowpos colpos curr dx dy =
      specBlockCost BLOCK_SIZE prevBlock rowpos colpos curr dx dy := by
  unfold calcSAD specBlockCost
  refine Finset.sum_congr rfl fun p _ => ?_
  by_cases h : 0 ≤ (p.1 : ℤ) + rowpos * BLOCK_SIZE + cround dy ∧
      (p.1 : ℤ) + rowpos * BLOCK_SIZE + cround dy < curr.rows ∧
      0 ≤ (p.2 : ℤ) + colpos * BLOCK_SIZE + cround dx ∧
      (p.2 : ℤ) + colpos * BLOCK_SIZE + cround dx < curr.cols
  · rw [if_neg (by omega), if_pos h]
  · rw [if_pos (by omega), if_neg h]

/-- A 1×1 reference block whose only pixel is 0 (for the boundary-penalty
monotonicity analysis of `calcSAD`). -/
def c6Ref : MatQ := ⟨1, 1, fun _ _ => 0⟩

/-- A 1×1 target frame whose only pixel is 5. -/
def c6Curr : MatQ := ⟨1, 1, fun _ _ => 5⟩

/-- `round(0) = 0`. -/
theorem cround_zero : cround 0 = 0 := by norm_num [cround]

/-- `round(5) = 5`. -/
theorem cround_five : cround 5 = 5 := by norm_num [cround]

/-- Displacement (0,0) keeps the 1×1 footprint inside the 1×1 frame. -/
theorem c6_outside_empty : outsidePixels 16 c6Ref 0 0 c6Curr 0 0 = ∅ := by
  simp [outsidePixels, pixelGrid, c6Ref, c6Curr, cround_zero, Finset.filter_singleton]

/-- C6 counterexample: with the 1×1 reference block `[[0]]`, the 1×1 target
frame `[[5]]` and block position (0,0), displacement `d1 = (0,0)` keeps the
whole footprint inside the frame (outside set `∅`, a subset of any outside
set, in particular of `d2 = (5,0)`'s), yet `calcSAD` costs 5 for `d1` (the
in-bounds absolute difference `|0 − 5|`) and only 0 for `d2` (the penalty
is the reference pixel, 0): the cost is NOT monotone in the
outside-pixel set. -/
theorem calcSAD_not_mono_in_outside_set :
    outsidePixels 16 c6Ref 0 0 c6Curr 0 0 ⊆ outsidePixels 16 c6Ref 0 0 c6Curr 5 0 ∧
    ¬ calcSAD 16 c6Ref 0 0 c6Curr 0 0 ≤ calcSAD 16 c6Ref 0 0 c6Curr 5 0 := by
  constructor
  · rw [c6_outside_empty]
    exact Finset.empty_subset _
  · have h1 : calcSAD 16 c6Ref 0 0 c6Curr 0 0 = 5 := by
      simp [calcSAD, pixelGrid, c6Ref, c6Curr, cround_zero]
    have h2 : calcSAD 16 c6Ref 0 0 c6Curr 5 0 = 0 := by
      simp [calcSAD, pixelGrid, c6Ref, c6Curr, cround_zero, cround_five]
    rw [h1, h2]
    norm_num

/-- C6 amended: the boundary-penalty portion of `calcSAD`'s cost (the sum
of the reference pixel values over the pixels whose displaced coordinate
leaves the target frame) is monotonically non-decreasing as more of the
footprint falls outside the frame bounds, provided the reference pixel
values are nonnegative; the total cost is not monotone (see the
counterexample). -/
theorem penaltyPortion_mono (BLOCK_SIZE : ℤ) (refBlock : MatQ)
    (rowpos colpos : ℤ) (target : MatQ) (dx1 dy1 dx2 dy2 : ℚ)
    (hnn : ∀ i j : ℤ, 0 ≤ refBlock.entry i j)
    (hsub : outsidePixels BLOCK_SIZE refBlock rowpos colpos target dx1 dy1 ⊆
      outsidePixels BLOCK_SIZE refBlock rowpos colpos target dx2 dy2) :
    penaltyPortion BLOCK_SIZE refBlock rowpos colpos target dx1 dy1 ≤
      penaltyPortion BLOCK_SIZE refBlock rowpos colpos target dx2 dy2 := by
  exact Finset.sum_le_sum_of_subset_of_nonneg hsub fun p _ _ => hnn p.1 p.2

/-- Witness for the amended C6 theorem at the concrete 1×1 block/frame pair
and the displacements (0,0) and (5,0). -/
theorem penaltyPortion_mono_witness :
    (∀ i j : ℤ, 0 ≤ c6Ref.entry i j) ∧
    outsidePixels 16 c6Ref 0 0 c6Curr 0 0 ⊆ outsidePixels 16 c6Ref 0 0 c6Curr 5 0 ∧
    penaltyPortion 16 c6Ref 0 0 c6Curr 0 0 ≤ penaltyPortion 16 c6Ref 0 0 c6Curr 5 0 :=
  ⟨fun _ _ => le_refl 0, c6_outside_empty ▸ Finset.empty_subset _,
    penaltyPortion_mono 16 c6Ref 0 0 c6Curr 0 0 5 0 (fun _ _ => le_refl 0)
      (c6_outside_empty ▸ Finset.empty_subset _)⟩

/-! ## Median Neighbor Predictor (src/util.cpp:152-203) -/

/-- The grid positions `medianNeighbor` reads its three neighbor motion
vectors from (src/util.cpp:159-187), with the code's branch conditions
written as in the source (`rowpos - 1 < 0`, `colpos - 1 < 0`). -/
def neighborSel (rowpos colpos : ℤ) : List (ℤ × ℤ) :=
  if rowpos - 1 < 0 ∧ colpos - 1 < 0 then
    [(rowpos, colpos + 1), (rowpos + 1, colpos), (rowpos + 1, colpos + 1)]
  else if colpos - 1 < 0 then
    [(rowpos - 1, colpos), (rowpos - 1, colpos + 1), (rowpos, colpos + 1)]
  else if rowpos - 1 < 0 then
    [(rowpos, colpos - 1), (rowpos + 1, colpos - 1), (rowpos + 1, colpos)]
  else
    [(rowpos - 1, colpos - 1), (rowpos - 1, colpos), (rowpos, colpos - 1)]

/-- Insert a value into an ascending list, keeping it ascending. -/
def insertAsc (a : ℚ) : List ℚ → List ℚ
  | [] => [a]
  | b :: t => if a ≤ b then a :: b :: t else b :: insertAsc a t

/-- Ascending insertion sort on rationals. -/
def sortAsc : List ℚ → List ℚ
  | [] => []
  | a :: t => insertAsc a (sortAsc t)

/-- The element a sorted copy of `l` holds at index `n`
(`0` past the end).  `std::nth_element(first, first + n, last)` places
exactly this value at `first + n`: after the call, `*(first + n)` is the
element that would be there if the whole range were sorted. -/
def nthOrderStat (l : List ℚ) (n : ℕ) : ℚ :=
  (sortAsc l).getD n 0

/-- `medianNeighbor` (src/util.cpp:152-203).  The code initialises
`x_coord` and `y_coord` as `vector<float>(3, 0.0)` — three zero elements —
and then `push_back`s the three neighbor coordinates onto them, so each
holds the six values `{0, 0, 0, v0, v1, v2}`; `median_it` is
`begin() + size()/2 = begin() + 3` and `std::nth_element` leaves at that
position the element of rank 3 (0-based) of the six-element vector.  The
motion-vector grid `prevBlockMV` is embedded as a total function; the code
reads it only at the positions of `neighborSel`. -/
def medianNeighbor (rowpos colpos : ℤ) (prevBlockMV : ℤ → ℤ → ℚ × ℚ) : ℚ × ℚ :=
  let neighborMV := (neighborSel rowpos colpos).map fun p => prevBlockMV p.1 p.2
  let x_coord := [0, 0, 0] ++ neighborMV.map Prod.fst
  let y_coord := [0, 0, 0] ++ neighborMV.map Prod.snd
  (nthOrderStat x_coord 3, nthOrderStat y_coord 3)

/-- A motion-vector grid whose entries at (0,0), (0,1), (1,0) — the three
neighbors `medianNeighbor` reads for the interior position (1,1) — are
(0,0), (2,2) and (4,4). -/
def c1Grid : ℤ → ℤ → ℚ × ℚ := fun i j =>
  if i = 0 ∧ j = 0 then (0, 0)
  else if i = 0 ∧ j = 1 then (2, 2)
  else (4, 4)

/-- C1: at the interior position (1,1) of `c1Grid` the three selected
neighbor vectors are {(0,0), (2,2), (4,4)}, whose per-coordinate median is
(2,2) — but `medianNeighbor` returns (0,0): because `x_coord`/`y_coord`
start with three zero elements before the neighbor coordinates are pushed
back, `nth_element` at index 3 returns the rank-3 element of
{0,0,0,0,2,4}, which is 0, not the median of the three neighbors.  The
code contradicts its own comment (src/util.cpp:154) and the spec. -/
theorem medianNeighbor_c1Grid_eq_zero :
    medianNeighbor 1 1 c1Grid = (0, 0) ∧ medianNeighbor 1 1 c1Grid ≠ ((2 : ℚ), (2 : ℚ)) := by
  have h : medianNeighbor 1 1 c1Grid = (0, 0) := by
    norm_num [medianNeighbor, neighborSel, c1Grid, nthOrderStat, sortAsc, insertAsc]
  refine ⟨h, ?_⟩
  rw [h]
  intro hcontra
  exact absurd (congrArg Prod.fst hcontra) (by norm_num)

/-- The neighbor case table exactly as the spec documents it (§4.3):
top-left corner (rowpos=0, colpos=0) takes right, below, below-right; the
left edge (colpos=0, rowpos>0) takes above, above-right, right; the top
edge (rowpos=0, colpos>0) takes left, below-left, below; every other
position takes above-left, above, left — where right = (r, c+1),
below = (r+1, c), above = (r-1, c), left = (r, c-1) and so on. -/
def specNeighborTable (rowpos colpos : ℤ) : List (ℤ × ℤ) :=
  if rowpos = 0 ∧ colpos = 0 then
    [(rowpos, colpos + 1), (rowpos + 1, colpos), (rowpos + 1, colpos + 1)]
  else if colpos = 0 ∧ 0 < rowpos then
    [(rowpos - 1, colpos), (rowpos - 1, colpos + 1), (rowpos, colpos + 1)]
  else if rowpos = 0 ∧ 0 < colpos then
    [(rowpos, colpos - 1), (rowpos + 1, colpos - 1), (rowpos + 1, colpos)]
  else
    [(rowpos - 1, colpos - 1), (rowpos - 1, colpos), (rowpos, colpos - 1)]

/-- C3: for every grid position (nonnegative row and column), the
neighbors `medianNeighbor` reads are exactly those of the spec's
documented case table for the four position classes. -/
theorem medianNeighbor_selection_eq_specTable (r c : ℤ) (hr : 0 ≤ r) (hc : 0 ≤ c) :
    neighborSel r c = specNeighborTable r c := by
  unfold neighborSel specNeighborTable
  split_ifs <;> first | rfl | omega

/-- Witness for C3 at the interior position (1,1). -/
theorem medianNeighbor_selection_eq_specTable_witness :
    ((0:ℤ) ≤ 1 ∧ (0:ℤ) ≤ 1) ∧ neighborSel 1 1 = specNeighborTable 1 1 :=
  ⟨⟨by decide, by decide⟩, medianNeighbor_selection_eq_specTable 1 1 (by decide) (by decide)⟩

/-- Is a grid position inside an `R × C` motion-vector grid? -/
def inGridB (R C : ℤ) (p : ℤ × ℤ) : Bool :=
  decide (0 ≤ p.1) && decide (p.1 < R) && decide (0 ≤ p.2) && decide (p.2 < C)

/-- C9 counterexample: position (1,0) of a 2×2 grid is in the left-edge
class (colpos = 0, rowpos > 0) and its rowpos is the LAST row, yet every
grid position `medianNeighbor` reads there — (0,0), (0,1), (1,1) — is in
bounds: the left-edge class never reads rowpos+1, so "rowpos = last row"
alone does not imply an out-of-bounds read in these classes. -/
theorem neighborSel_leftEdge_lastRow_inBounds :
    (neighborSel 1 0).all (inGridB 2 2) = true := by decide

/-- C9 amended: the top-left-corner class reads rowpos+1 and colpos+1, the
left-edge class reads colpos+1 (but not rowpos+1), and the top-edge class
reads rowpos+1 (but not colpos+1); consequently every access of every
position of an `R × C` grid (`R, C ≥ 1`) is in bounds exactly when the
grid has at least 2 rows and 2 columns. -/
theorem neighborSel_inBounds_iff (R C : ℤ) (hR : 1 ≤ R) (hC : 1 ≤ C) :
    (∀ r c : ℤ, 0 ≤ r → r < R → 0 ≤ c → c < C →
      ∀ p ∈ neighborSel r c, inGridB R C p = true) ↔ (2 ≤ R ∧ 2 ≤ C) := by
  constructor
  · intro h
    have h0 : neighborSel 0 0 = [(0, 1), (1, 0), (1, 1)] := by decide
    have hb := h 0 0 le_rfl (by omega) le_rfl (by omega)
    rw [h0] at hb
    have h1 := hb (1, 0) (by simp)
    have h2 := hb (0, 1) (by simp)
    simp only [inGridB, Bool.and_eq_true, decide_eq_true_eq] at h1 h2
    omega
  · rintro ⟨h2R, h2C⟩ r c hr hrR hc hcC p hp
    simp only [inGridB, Bool.and_eq_true, decide_eq_true_eq]
    unfold neighborSel at hp
    split_ifs at hp <;> simp only [List.mem_cons, List.mem_singleton,
      List.not_mem_nil, or_false] at hp <;>
      rcases hp with rfl | rfl | rfl <;> simp <;> omega

/-- Witness for the amended C9 theorem at the minimal 2×2 grid. -/
theorem neighborSel_inBounds_iff_witness :
    ((1:ℤ) ≤ 2 ∧ (1:ℤ) ≤ 2) ∧
    ((∀ r c : ℤ, 0 ≤ r → r < 2 → 0 ≤ c → c < 2 →
      ∀ p ∈ neighborSel r c, inGridB 2 2 p = true) ↔ ((2:ℤ) ≤ 2 ∧ (2:ℤ) ≤ 2)) :=
  ⟨⟨by decide, by decide⟩, neighborSel_inBounds_iff 2 2 (by decide) (by decide)⟩

/-! ## phaseCorr entry assertions (src/util.cpp:51-59) -/

/-- OpenCV type code of a single-channel 32-bit float matrix. -/
def CV_32FC1 : ℕ := 5

/-- OpenCV type code of a single-channel 64-bit float matrix. -/
def CV_64FC1 : ℕ := 6

/-- The metadata of a `cv::Mat` that the `CV_Assert`s at the top of
`phaseCorr` inspect: element type code and dimensions. -/
structure MatMeta where
  type : ℕ
  rows : ℤ
  cols : ℤ

/-- The conjunction of the `CV_Assert` conditions at the top of
`phaseCorr` (src/util.cpp:51-59): equal types, type 32- or 64-bit
single-channel float, equal sizes, and — only when a window is supplied
(`!window.empty()`) — window type and size equal to the patches'. -/
def phaseCorrChecks (src1 src2 : MatMeta) (window : Option MatMeta) : Bool :=
  (src1.type == src2.type) &&
  (src1.type == CV_32FC1 || src1.type == CV_64FC1) &&
  (src1.rows == src2.rows && src1.cols == src2.cols) &&
  (match window with
   | none => true
   | some w => (src1.type == w.type) && (src1.rows == w.rows && src1.cols == w.cols))

/-- `CV_Assert` aborts the process on a failed check and is not a
recoverable error: the entry of `phaseCorr` either passes all asserts
(`ok`) or aborts (`error`). -/
def phaseCorrEntry (src1 src2 : MatMeta) (window : Option MatMeta) : Except Unit Unit :=
  if phaseCorrChecks src1 src2 window then Except.ok () else Except.error ()

/-- The precondition as the spec words it (§4.1): both patches have
identical dimensions and numeric type, that type is 32- or 64-bit float,
and a supplied window matches their dimensions and type. -/
def specPhaseCorrPrecond (src1 src2 : MatMeta) (window : Option MatMeta) : Prop :=
  src1.rows = src2.rows ∧ src1.cols = src2.cols ∧ src1.type = src2.type ∧
  (src1.type = CV_32FC1 ∨ src1.type = CV_64FC1) ∧
  ∀ w ∈ window, w.rows = src1.rows ∧ w.cols = src1.cols ∧ w.type = src1.type

/-- C7: the `CV_Assert`s at `phaseCorr`'s entry catch exactly the
violations of the spec's precondition — under the precondition no assertion
fires, and any violation aborts (is never returned as a recoverable
error). -/
theorem phaseCorrEntry_ok_iff_precond (s1 s2 : MatMeta) (w : Option MatMeta) :
    (phaseCorrEntry s1 s2 w = Except.ok () ↔ specPhaseCorrPrecond s1 s2 w) ∧
    (phaseCorrEntry s1 s2 w = Except.error () ↔ ¬ specPhaseCorrPrecond s1 s2 w) := by
  have hiff : phaseCorrChecks s1 s2 w = true ↔ specPhaseCorrPrecond s1 s2 w := by
    unfold phaseCorrChecks specPhaseCorrPrecond
    cases w <;> simp <;> tauto
  constructor
  · unfold phaseCorrEntry
    split_ifs with h <;> simp_all
  · unfold phaseCorrEntry
    split_ifs with h <;> simp_all

/-! ## writeToFile (src/util.cpp:205-213) -/

/-- The single report line `writeToFile` emits for the elapsed duration. -/
def reportLine (durationMs : ℤ) : String :=
  "Interpolated frame in :" ++ toString durationMs ++ " milliseconds \n"

/-- `writeToFile` (src/util.cpp:205-213): a sink stream in a failed state
(`!file`) is fatal (`exit(-1)`, modelled as `error`); otherwise the report
line is appended to the sink's contents. -/
def writeToFile (fileOk : Bool) (sink : List String) (durationMs : ℤ) :
    Except Unit (List String) :=
  if !fileOk then Except.error ()
  else Except.ok (sink ++ [reportLine durationMs])

/-- C8: when the sink is not usable the call is fatal, and otherwise
exactly one line is appended, a human-readable line containing the elapsed
duration in milliseconds. -/
theorem writeToFile_spec (sink : List String) (d : ℤ) :
    writeToFile false sink d = Except.error () ∧
    writeToFile true sink d = Except.ok (sink ++ [reportLine d]) ∧
    ∃ pre post : String, reportLine d = pre ++ toString d ++ post :=
  ⟨rfl, rfl, "Interpolated frame in :", " milliseconds \n", rfl⟩

/-! ## phaseCorr input-buffer effect (src/util.cpp:44-127) -/

/-- Strip as many factors `p` from `n` as the fuel allows (enough fuel
makes it exhaustive). -/
def divOut (p : ℕ) : ℕ → ℕ → ℕ
  | 0, n => n
  | fuel + 1, n => if n % p = 0 ∧ 2 ≤ p ∧ 1 ≤ n then divOut p fuel (n / p) else n

/-- Is `n` of the form `2^a * 3^b * 5^c`? -/
def isFiveSmooth (n : ℕ) : Bool :=
  divOut 5 n (divOut 3 n (divOut 2 n n)) == 1

/-- Modelled from the spec: `cv::getOptimalDFTSize` is an external OpenCV
routine (spec §4.1 step 1: "the nearest size for which a fast transform is
efficient"), documented to return the smallest `N ≥ n` expressible as
`2^a * 3^b * 5^c`.  The search range `[n, 2n]` always contains a power of
two, hence the optimum. -/
def getOptimalDFTSize (n : ℕ) : ℕ :=
  (((List.range (n + 1)).map (n + ·)).find? isFiveSmooth).getD 0

/-- Elementwise product (`cv::multiply(a, b, dst)` with `dst = b`'s
buffer). -/
def hadamard (a b : MatQ) : MatQ :=
  ⟨b.rows, b.cols, fun i j => a.entry i j * b.entry i j⟩

/-- The contents of `src1`'s and `src2`'s buffers when `phaseCorr`
returns (src/util.cpp:61-91).  When `getOptimalDFTSize` asks for padding,
`copyMakeBorder` writes fresh `padded1`/`padded2` buffers and the inputs
stay untouched; otherwise the `Mat` assignments `padded1 = src1`,
`padded2 = src2` share the input buffers, and a supplied window is then
multiplied elementwise *into those buffers* by
`multiply(paddedWin, padded1, padded1)`.  Every later write of the
function (`dft`, `idft`, the peak zeroing) targets freshly allocated
matrices. -/
def phaseCorrInputBuffers (src1 src2 : MatQ) (window : Option MatQ) : MatQ × MatQ :=
  if (getOptimalDFTSize src1.rows.toNat : ℤ) ≠ src1.rows ∨
     (getOptimalDFTSize src1.cols.toNat : ℤ) ≠ src1.cols then
    (src1, src2)
  else
    match window with
    | some w => (hadamard w src1, hadamard w src2)
    | none => (src1, src2)

/-- A 1×1 patch holding 3 (1 is already an optimal DFT size). -/
def c5Src1 : MatQ := ⟨1, 1, fun _ _ => 3⟩

/-- A 1×1 patch holding 4. -/
def c5Src2 : MatQ := ⟨1, 1, fun _ _ => 4⟩

/-- A 1×1 window holding 2. -/
def c5Win : MatQ := ⟨1, 1, fun _ _ => 2⟩

/-- C5 fails on the code: with a window supplied and the patch dimensions
already optimal DFT sizes (1×1), `phaseCorr` multiplies the window into
the very buffers of `src1` and `src2` — the pixel 3 of `src1` becomes
`2·3 = 6` and the pixel 4 of `src2` becomes `2·4 = 8` — instead of leaving
the frames read-only as the spec requires. -/
theorem phaseCorr_mutates_inputs :
    (phaseCorrInputBuffers c5Src1 c5Src2 (some c5Win)).1.entry 0 0 = 6 ∧
    (phaseCorrInputBuffers c5Src1 c5Src2 (some c5Win)).2.entry 0 0 = 8 ∧
    c5Src1.entry 0 0 = 3 ∧ c5Src2.entry 0 0 = 4 := by
  have hopt : getOptimalDFTSize 1 = 1 := by decide
  refine ⟨?_, ?_, rfl, rfl⟩ <;>
    · simp only [phaseCorrInputBuffers, c5Src1, c5Src2, c5Win]
      norm_num [hadamard, hopt]

/-! ## phaseCorr peak extraction and response (src/util.cpp:107-127)

The front of `phaseCorr` (DFTs, cross-power spectrum, inverse transform,
`fftShift`) produces a real-valued correlation surface of the padded size;
its floating-point transform arithmetic is not embedded — the tail below is
analysed over an arbitrary correlation surface. -/

/-- Row-major scan order of a `rows × cols` image (the order `minMaxLoc`
visits the samples in). -/
def scanPositions (rows cols : ℕ) : List (ℕ × ℕ) :=
  (List.range rows).flatMap fun i => (List.range cols).map fun j => (i, j)

/-- The location `cv::minMaxLoc` reports for the maximum: scanning in
row-major order and updating only on a strictly greater value, i.e. the
first position attaining the maximum. -/
def argmaxLoc (C : MatQ) : ℕ × ℕ :=
  (scanPositions C.rows.toNat C.cols.toNat).foldl
    (fun best p => if C.entry best.1 best.2 < C.entry p.1 p.2 then p else best) (0, 0)

/-- The 5×5 neighborhood around a peak, clamped to the image bounds. -/
def win5 (C : MatQ) (peak : ℕ × ℕ) : List (ℤ × ℤ) :=
  ((List.range 5).flatMap fun a => (List.range 5).map fun b =>
    ((peak.1 : ℤ) + a - 2, (peak.2 : ℤ) + b - 2)).filter fun p =>
      decide (0 ≤ p.1) && decide (p.1 < C.rows) && decide (0 ≤ p.2) && decide (p.2 < C.cols)

/-- Modelled from the spec: `weightedCentroid` is declared in
`opencv_methods.hpp`, which is not among the sources.  Spec §4.1 steps 6-8:
it computes the weighted centroid (an (x, y) point) of the 5×5 neighborhood
around the peak location for sub-pixel accuracy, and reports the
cross-correlation peak value through the response out-parameter (the
division by `rows × cols` happens in the caller). -/
def weightedCentroid (C : MatQ) (peak : ℕ × ℕ) : (ℚ × ℚ) × ℚ :=
  let ps := win5 C peak
  let s : ℚ := (ps.map fun p => C.entry p.1 p.2).sum
  let wx : ℚ := (ps.map fun p => (p.2 : ℚ) * C.entry p.1 p.2).sum
  let wy : ℚ := (ps.map fun p => (p.1 : ℚ) * C.entry p.1 p.2).sum
  ((wx / s, wy / s), C.entry peak.1 peak.2)

/-- `C.at<float>(peakLoc) = 0` (src/util.cpp:115): the surface with the
value at one location replaced. -/
def setAt (C : MatQ) (loc : ℕ × ℕ) (v : ℚ) : MatQ :=
  ⟨C.rows, C.cols, fun i j => if i = loc.1 ∧ j = loc.2 then v else C.entry i j⟩

/-- The tail of `phaseCorr` (src/util.cpp:107-127) over the correlation
surface `C`: find the peak, take its 5×5 weighted centroid (writing the
peak response through the single `response` pointer), zero the peak on the
surface itself, find and centroid the second peak (overwriting `response`),
divide `response` once by `M*N`, and return the two displacements relative
to the padded center `(cols/2, rows/2)`. -/
def phaseCorrTail (C : MatQ) : (ℚ × ℚ) × (ℚ × ℚ) × ℚ :=
  let peakLoc := argmaxLoc C
  let t1 := weightedCentroid C peakLoc
  let Cz := setAt C peakLoc 0
  let peakLoc2 := argmaxLoc Cz
  let t2 := weightedCentroid Cz peakLoc2
  let response := t2.2 / ((C.rows : ℚ) * (C.cols : ℚ))
  let center : ℚ × ℚ := ((C.cols : ℚ) / 2, (C.rows : ℚ) / 2)
  ((center.1 - t1.1.1, center.2 - t1.1.2),
   (center.1 - t2.1.1, center.2 - t2.1.2), response)

/-- The two candidates as the spec describes them (§4.1 steps 6-8): the
primary from the global maximum of the surface, the secondary from the
maximum after the primary peak is zeroed; each candidate's displacement is
`patchCenter − centroid` and each candidate's response score is that
candidate's OWN cross-correlation peak value divided by `rows × cols` of
the padded size. -/
def specCandidates (C : MatQ) : ((ℚ × ℚ) × ℚ) × ((ℚ × ℚ) × ℚ) :=
  let pk1 := argmaxLoc C
  let cen1 := (weightedCentroid C pk1).1
  let Cz := setAt C pk1 0
  let pk2 := argmaxLoc Cz
  let cen2 := (weightedCentroid Cz pk2).1
  let center : ℚ × ℚ := ((C.cols : ℚ) / 2, (C.rows : ℚ) / 2)
  (((center.1 - cen1.1, center.2 - cen1.2),
      C.entry pk1.1 pk1.2 / ((C.rows : ℚ) * (C.cols : ℚ))),
   ((center.1 - cen2.1, center.2 - cen2.2),
      Cz.entry pk2.1 pk2.2 / ((C.rows : ℚ) * (C.cols : ℚ))))

/-- A 1×4 correlation surface `[8, 0, 0, 4]`: primary peak 8 at (0,0),
secondary peak 4 at (0,3). -/
def c4Surf : MatQ :=
  ⟨1, 4, fun i j => if i = 0 ∧ j = 0 then 8 else if i = 0 ∧ j = 3 then 4 else 0⟩

/-- On `c4Surf` the primary peak is at (0,0). -/
theorem argmaxLoc_c4Surf : argmaxLoc c4Surf = (0, 0) := by
  have hscan : scanPositions c4Surf.rows.toNat c4Surf.cols.toNat =
      [(0, 0), (0, 1), (0, 2), (0, 3)] := rfl
  rw [argmaxLoc, hscan]
  norm_num [c4Surf, List.foldl_cons, List.foldl_nil]

/-- After zeroing the primary peak of `c4Surf`, the next peak is at
(0,3). -/
theorem argmaxLoc_c4Surf_zeroed : argmaxLoc (setAt c4Surf (0, 0) 0) = (0, 3) := by
  have hscan : scanPositions (setAt c4Surf (0, 0) 0).rows.toNat
      (setAt c4Surf (0, 0) 0).cols.toNat = [(0, 0), (0, 1), (0, 2), (0, 3)] := rfl
  rw [argmaxLoc, hscan]
  norm_num [c4Surf, setAt, List.foldl_cons, List.foldl_nil]

/-- C4 counterexample: on the surface `[8, 0, 0, 4]` the single response
value `phaseCorr` writes through its one `response` pointer is
`4 / (1·4) = 1` — the SECONDARY peak's normalized value, because the second
`weightedCentroid` call overwrites the first one's write — and differs
from the primary candidate's own score `8 / (1·4) = 2` that the claim says
is produced for the primary: no per-candidate pair of scores exists. -/
theorem phaseCorrTail_single_response :
    (phaseCorrTail c4Surf).2.2 ≠ (specCandidates c4Surf).1.2 ∧
    (phaseCorrTail c4Surf).2.2 = 1 ∧ (specCandidates c4Surf).1.2 = 2 := by
  have h1 : (phaseCorrTail c4Surf).2.2 = 1 := by
    simp only [phaseCorrTail]
    rw [argmaxLoc_c4Surf, argmaxLoc_c4Surf_zeroed]
    norm_num [weightedCentroid, setAt, c4Surf]
  have h2 : (specCandidates c4Surf).1.2 = 2 := by
    simp only [specCandidates]
    rw [argmaxLoc_c4Surf]
    norm_num [c4Surf]
  refine ⟨?_, h1, h2⟩
  rw [h1, h2]
  norm_num

/-- C4 amended: both returned displacements equal
`patchCenter − centroid of the candidate's 5×5 peak neighborhood` (the
secondary's computed on the surface with the primary peak zeroed), exactly
as the spec's candidate model; but only ONE response score is produced —
the out-parameter holds the secondary candidate's peak value divided by
`rows × cols` of the padded size, the primary's score having been
overwritten. -/
theorem phaseCorrTail_matches_specCandidates (C : MatQ) :
    (phaseCorrTail C).1 = (specCandidates C).1.1 ∧
    (phaseCorrTail C).2.1 = (specCandidates C).2.1 ∧
    (phaseCorrTail C).2.2 = (specCandidates C).2.2 :=
  ⟨rfl, rfl, rfl⟩

end FRUC
